import Mathlib

/-!
# Curriculum-standard recommendation engine: formal model

A shallow embedding of the curriculum-standard recommendation engine
(the `useCurriculumRecommendation` hook, the static curriculum catalog,
and the inline recommendation variant of the `CurriculumSelector`
component), together with theorems settling the specification claims.

Machine numbers are modelled as `Nat`/`Int`/`ℚ` (all confidence
contributions are small non-negative integers, far from any overflow);
JavaScript's stable `Array.prototype.sort` is modelled by insertion
sort with a total preorder; `parseInt` is modelled by a function
returning `Option Int` (`none` plays the role of `NaN`, which makes
every numeric comparison false); the `TypeError` thrown by
`Array.prototype.reduce` on an empty array with no initial value is
modelled with `Except`.
-/

/-- JavaScript `String.prototype.includes` on unpacked characters. -/
def listIncludes (pat : List Char) : List Char → Bool
  | [] => pat.isEmpty
  | c :: cs => pat.isPrefixOf (c :: cs) || listIncludes pat cs

/-- JavaScript `s.includes(pat)`. -/
def strIncludes (s pat : String) : Bool :=
  listIncludes pat.data s.data

/-- JavaScript `parseInt(s)` (radix 10): skip leading whitespace, read an
optional sign and then a maximal run of decimal digits; `none` models the
`NaN` result produced when no digit is found. -/
def jsParseInt (s : String) : Option Int :=
  let afterSpace := s.data.dropWhile (·.isWhitespace)
  let signAndRest : Int × List Char :=
    match afterSpace with
    | '-' :: cs => (-1, cs)
    | '+' :: cs => (1, cs)
    | cs => (1, cs)
  let digits := signAndRest.2.takeWhile (·.isDigit)
  if digits.isEmpty then none
  else some (signAndRest.1 * (digits.foldl (fun acc c => acc * 10 + (c.toNat - '0'.toNat)) 0 : Nat))

/-- The `priority` field of a catalog entry (`'primary' | 'secondary'`). -/
inductive CatalogPriority
  | primary
  | secondary
deriving DecidableEq

/-- Union type `'national' | 'state' | 'international'`. -/
inductive Region
  | national
  | state
  | international
deriving DecidableEq

/-- Union type `'government' | 'private' | 'international'`. -/
inductive SchoolType
  | government
  | private'
  | international
deriving DecidableEq

/-- Union type `'english' | 'hindi'`. -/
inductive LanguagePref
  | english
  | hindi
deriving DecidableEq

/-- Union type `'beginner' | 'intermediate' | 'expert'`. -/
inductive Experience
  | beginner
  | intermediate
  | expert
deriving DecidableEq

/-- Union type `'small' | 'medium' | 'large'`. -/
inductive ClassSize
  | small
  | medium
  | large
deriving DecidableEq

/-- Union type `'limited' | 'moderate' | 'abundant'`. -/
inductive ResourceAvailability
  | limited
  | moderate
  | abundant
deriving DecidableEq

/-- A recommendation's priority tier (`'primary' | 'secondary' | 'alternative'`). -/
inductive Priority
  | primary
  | secondary
  | alternative
deriving DecidableEq

/-- Implementation complexity (`'low' | 'medium' | 'high'`). -/
inductive Complexity
  | low
  | medium
  | high
deriving DecidableEq

/-- Interface `CurriculumStandard` from `utils/curriculumStandards`. -/
structure CurriculumStandard where
  id : String
  name : String
  nameHindi : String
  description : String
  descriptionHindi : String
  priority : CatalogPriority
  region : Region
  grades : List String
  subjects : List String
  website : String
deriving DecidableEq

/-- Interface `UserContext` from the recommendation hook. -/
structure UserContext where
  location : String
  schoolType : SchoolType
  language : LanguagePref
  gradeLevel : Option String := none
  previousSelections : Option (List String) := none
  teachingExperience : Option Experience := none
  classSize : Option ClassSize := none
  resourceAvailability : Option ResourceAvailability := none
deriving DecidableEq

/-- Interface `RecommendationResult` from the recommendation hook. -/
structure RecommendationResult where
  standard : CurriculumStandard
  confidence : Nat
  reasons : List String
  priority : Priority
  implementationComplexity : Complexity
  expectedOutcomes : List String
deriving DecidableEq

/-- Interface `RecommendationAnalytics` from the recommendation hook
(`averageConfidence` and `userSatisfactionPrediction` are JavaScript
numbers, modelled as rationals). -/
structure RecommendationAnalytics where
  totalRecommendations : Nat
  averageConfidence : ℚ
  topCategory : String
  userSatisfactionPrediction : ℚ
  implementationTimeEstimate : String
deriving DecidableEq

/-- The `ncert` entry of `INDIAN_CURRICULUM_STANDARDS`. -/
def ncertStandard : CurriculumStandard where
  id := "ncert"
  name := "NCERT (National Council of Educational Research and Training)"
  nameHindi := "राष्ट्रीय शैक्षिक अनुसंधान और प्रशिक्षण परिषद"
  description := "National curriculum framework for Indian schools"
  descriptionHindi := "भारतीय स्कूलों के लिए राष्ट्रीय पाठ्यक्रम ढांचा"
  priority := .primary
  region := .national
  grades := ["1", "2", "3", "4", "5", "6", "7", "8", "9", "10"]
  subjects := ["mathematics", "science", "english", "hindi", "social-studies", "art"]
  website := "https://ncert.nic.in"

/-- The `cbse` entry of `INDIAN_CURRICULUM_STANDARDS`. -/
def cbseStandard : CurriculumStandard where
  id := "cbse"
  name := "CBSE (Central Board of Secondary Education)"
  nameHindi := "केंद्रीय माध्यमिक शिक्षा बोर्ड"
  description := "Central board curriculum for Indian schools"
  descriptionHindi := "भारतीय स्कूलों के लिए केंद्रीय बोर्ड पाठ्यक्रम"
  priority := .primary
  region := .national
  grades := ["1", "2", "3", "4", "5", "6", "7", "8", "9", "10"]
  subjects := ["mathematics", "science", "english", "hindi", "social-studies", "art"]
  website := "https://cbse.gov.in"

/-- The `icse` entry of `INDIAN_CURRICULUM_STANDARDS`. -/
def icseStandard : CurriculumStandard where
  id := "icse"
  name := "ICSE (Indian Certificate of Secondary Education)"
  nameHindi := "भारतीय माध्यमिक शिक्षा प्रमाणपत्र"
  description := "Council for Indian School Certificate Examinations curriculum"
  descriptionHindi := "भारतीय स्कूल प्रमाणपत्र परीक्षा परिषद पाठ्यक्रम"
  priority := .primary
  region := .national
  grades := ["1", "2", "3", "4", "5", "6", "7", "8", "9", "10"]
  subjects := ["mathematics", "science", "english", "hindi", "social-studies", "art"]
  website := "https://cisce.org"

/-- The `ib` entry of `INTERNATIONAL_STANDARDS`. -/
def ibStandard : CurriculumStandard where
  id := "ib"
  name := "International Baccalaureate (IB)"
  nameHindi := "अंतर्राष्ट्रीय स्नातक"
  description := "Global education program with international perspective"
  descriptionHindi := "अंतर्राष्ट्रीय दृष्टिकोण के साथ वैश्विक शिक्षा कार्यक्रम"
  priority := .secondary
  region := .international
  grades := ["1", "2", "3", "4", "5", "6", "7", "8", "9", "10"]
  subjects := ["mathematics", "science", "english", "social-studies", "art"]
  website := "https://ibo.org"

/-- The `cambridge` entry of `INTERNATIONAL_STANDARDS`. -/
def cambridgeStandard : CurriculumStandard where
  id := "cambridge"
  name := "Cambridge International"
  nameHindi := "कैम्ब्रिज अंतर्राष्ट्रीय"
  description := "British curriculum with global recognition"
  descriptionHindi := "वैश्विक मान्यता के साथ ब्रिटिश पाठ्यक्रम"
  priority := .secondary
  region := .international
  grades := ["1", "2", "3", "4", "5", "6", "7", "8", "9", "10"]
  subjects := ["mathematics", "science", "english", "social-studies", "art"]
  website := "https://cambridgeinternational.org"

/-- The `common-core` entry of `INTERNATIONAL_STANDARDS`. -/
def commonCoreStandard : CurriculumStandard where
  id := "common-core"
  name := "Common Core State Standards"
  nameHindi := "सामान्य मूल राज्य मानक"
  description := "American educational standards"
  descriptionHindi := "अमेरिकी शैक्षिक मानक"
  priority := .secondary
  region := .international
  grades := ["1", "2", "3", "4", "5", "6", "7", "8", "9", "10"]
  subjects := ["mathematics", "science", "english", "social-studies", "art"]
  website := "https://corestandards.org"

/-- Constant `INDIAN_CURRICULUM_STANDARDS` from `utils/curriculumStandards`. -/
def INDIAN_CURRICULUM_STANDARDS : List CurriculumStandard :=
  [ncertStandard, cbseStandard, icseStandard]

/-- Constant `INTERNATIONAL_STANDARDS` from `utils/curriculumStandards`. -/
def INTERNATIONAL_STANDARDS : List CurriculumStandard :=
  [ibStandard, cambridgeStandard, commonCoreStandard]

/-- Spread `[...INDIAN_CURRICULUM_STANDARDS, ...INTERNATIONAL_STANDARDS]`, the
combined catalog the engine iterates over. -/
def allStandards : List CurriculumStandard :=
  INDIAN_CURRICULUM_STANDARDS ++ INTERNATIONAL_STANDARDS

/-- JavaScript `s.toLowerCase()`: lower-case each character (`String.toLower`, written
over the character list so that it evaluates by kernel reduction). -/
def strToLower (s : String) : String :=
  ⟨s.data.map Char.toLower⟩

/-- The test `context.location.toLowerCase().includes('india') || context.location === 'in'`. -/
def locationIndicatesIndia (location : String) : Bool :=
  strIncludes (strToLower location) "india" || location == "in"

/-- The mutable locals of `analyzeStandardFit` (`confidence`, `reasons`,
`priority`, `implementationComplexity`, `expectedOutcomes`), threaded
through the six scoring rules in source order. -/
structure FitState where
  confidence : Nat
  reasons : List String
  priority : Priority
  implementationComplexity : Complexity
  expectedOutcomes : List String
deriving DecidableEq

/-- Initial state of `analyzeStandardFit`: confidence 0, no reasons,
priority `alternative`, complexity `medium`, no expected outcomes. -/
def initFitState : FitState where
  confidence := 0
  reasons := []
  priority := .alternative
  implementationComplexity := .medium
  expectedOutcomes := []

/-- Rule 1 of `analyzeStandardFit`: geographic and cultural alignment. -/
def geographicRule (standard : CurriculumStandard) (context : UserContext)
    (s : FitState) : FitState :=
  if locationIndicatesIndia context.location then
    if standard.region = Region.national then
      { s with
        confidence := s.confidence + 35
        reasons := s.reasons ++ ["Designed specifically for Indian educational ecosystem"]
        priority := .primary
        implementationComplexity := .low
        expectedOutcomes := s.expectedOutcomes ++
          ["Seamless integration with existing Indian school systems"] }
    else
      { s with
        confidence := s.confidence + 15
        reasons := s.reasons ++ ["Provides valuable international perspective"]
        priority := .secondary
        implementationComplexity := .high
        expectedOutcomes := s.expectedOutcomes ++ ["Enhanced global awareness for students"] }
  else
    if standard.region = Region.international then
      { s with
        confidence := s.confidence + 30
        reasons := s.reasons ++ ["International standard suitable for global schools"]
        priority := .primary }
    else s

/-- Rule 2 of `analyzeStandardFit`: school type alignment. -/
def schoolTypeRule (standard : CurriculumStandard) (context : UserContext)
    (s : FitState) : FitState :=
  if context.schoolType = SchoolType.government then
    if standard.id = "ncert" then
      { s with
        confidence := s.confidence + 25
        reasons := s.reasons ++ ["NCERT is the official framework for government schools"]
        expectedOutcomes := s.expectedOutcomes ++
          ["Direct alignment with government education policies"] }
    else if standard.id = "cbse" then
      { s with
        confidence := s.confidence + 15
        reasons := s.reasons ++ ["CBSE builds upon NCERT foundation"] }
    else s
  else if context.schoolType = SchoolType.private' then
    if standard.id = "cbse" ∨ standard.id = "icse" then
      { s with
        confidence := s.confidence + 20
        reasons := s.reasons ++
          ["Widely adopted by private schools for board exam preparation"]
        expectedOutcomes := s.expectedOutcomes ++ ["Strong board exam performance"] }
    else s
  else if context.schoolType = SchoolType.international then
    if standard.id = "ib" ∨ standard.id = "cambridge" then
      { s with
        confidence := s.confidence + 25
        reasons := s.reasons ++ ["Internationally recognized for student mobility"]
        implementationComplexity := .high
        expectedOutcomes := s.expectedOutcomes ++ ["Global university admission advantages"] }
    else s
  else s

/-- Rule 3 of `analyzeStandardFit`: language preference alignment. -/
def languageRule (standard : CurriculumStandard) (context : UserContext)
    (s : FitState) : FitState :=
  if context.language = LanguagePref.hindi then
    if standard.region = Region.national then
      { s with
        confidence := s.confidence + 20
        reasons := s.reasons ++ ["Strong Hindi language support and cultural integration"]
        expectedOutcomes := s.expectedOutcomes ++
          ["Better student comprehension in native language"] }
    else s
  else if context.language = LanguagePref.english then
    if standard.region = Region.international then
      { s with
        confidence := s.confidence + 15
        reasons := s.reasons ++ ["English-medium instruction with global perspective"] }
    else s
  else s

/-- Rule 4 of `analyzeStandardFit`: grade level considerations.  The guard
`if (context.gradeLevel)` is JavaScript truthiness: it fails for an absent
grade and for the empty string.  A grade that `parseInt` cannot parse gives
`NaN`, for which both numeric comparisons are false, so no branch fires. -/
def gradeRule (standard : CurriculumStandard) (context : UserContext)
    (s : FitState) : FitState :=
  match context.gradeLevel with
  | none => s
  | some g =>
    if g = "" then s
    else
      match jsParseInt g with
      | none => s
      | some gradeNum =>
        if gradeNum ≤ 5 ∧ standard.id = "ncert" then
          { s with
            confidence := s.confidence + 10
            reasons := s.reasons ++
              ["NCERT provides excellent foundation for primary education"]
            expectedOutcomes := s.expectedOutcomes ++ ["Strong conceptual foundation building"] }
        else if 9 ≤ gradeNum ∧ (standard.id = "cbse" ∨ standard.id = "icse") then
          { s with
            confidence := s.confidence + 10
            reasons := s.reasons ++ ["Optimized for board exam preparation"]
            expectedOutcomes := s.expectedOutcomes ++ ["Enhanced board exam performance"] }
        else s

/-- Rule 5 of `analyzeStandardFit`: teaching experience factor. -/
def experienceRule (standard : CurriculumStandard) (context : UserContext)
    (s : FitState) : FitState :=
  if context.teachingExperience = some Experience.beginner ∧ standard.id = "ncert" then
    { s with
      confidence := s.confidence + 5
      reasons := s.reasons ++ ["NCERT provides comprehensive teacher support materials"]
      implementationComplexity := .low }
  else if context.teachingExperience = some Experience.expert ∧
      standard.region = Region.international then
    { s with
      confidence := s.confidence + 5
      reasons := s.reasons ++ ["International standards offer advanced pedagogical approaches"] }
  else s

/-- Rule 6 of `analyzeStandardFit`: resource availability factor. -/
def resourceRule (standard : CurriculumStandard) (context : UserContext)
    (s : FitState) : FitState :=
  if context.resourceAvailability = some ResourceAvailability.limited ∧
      standard.region = Region.national then
    { s with
      confidence := s.confidence + 5
      reasons := s.reasons ++ ["Designed for diverse resource environments in India"]
      implementationComplexity := .low }
  else if context.resourceAvailability = some ResourceAvailability.abundant ∧
      standard.region = Region.international then
    { s with
      confidence := s.confidence + 5
      reasons := s.reasons ++ ["Can leverage advanced resources for international curriculum"] }
  else s

/-- Function `analyzeStandardFit(standard, context)`: run the six scoring rules in
source order and assemble the `RecommendationResult`, clamping confidence
at 100 (`Math.min(confidence, 100)`). -/
def analyzeStandardFit (standard : CurriculumStandard) (context : UserContext) :
    RecommendationResult :=
  let s :=
    resourceRule standard context
      (experienceRule standard context
        (gradeRule standard context
          (languageRule standard context
            (schoolTypeRule standard context
              (geographicRule standard context initFitState)))))
  { standard := standard
    confidence := min s.confidence 100
    reasons := s.reasons
    priority := s.priority
    implementationComplexity := s.implementationComplexity
    expectedOutcomes := s.expectedOutcomes }

/-- Table `priorityWeight` with primary 100, secondary 50, alternative 10. -/
def priorityWeight : Priority → Nat
  | .primary => 100
  | .secondary => 50
  | .alternative => 10

/-- The composite sort key `confidence + priorityWeight[priority]` of the
hook's comparator. -/
def compositeScore (r : RecommendationResult) : Nat :=
  r.confidence + priorityWeight r.priority

/-- The hook's comparator `(a, b) => bScore - aScore` as the total preorder
"`a` may come before `b`": descending composite score. -/
def hookLE (a b : RecommendationResult) : Prop :=
  compositeScore b ≤ compositeScore a

instance : DecidableRel hookLE := fun _ _ => Nat.decLe _ _

instance : IsTotal RecommendationResult hookLE :=
  ⟨fun a b => Nat.le_total (compositeScore b) (compositeScore a)⟩

instance : IsTrans RecommendationResult hookLE :=
  ⟨fun _ _ _ hab hbc => Nat.le_trans hbc hab⟩

/-- The results pushed by the scoring loop of `generateRecommendations`,
in catalog-iteration order: every catalog entry is scored and kept when
`analysis.confidence >= 30`. -/
def scoredAboveThreshold (context : UserContext) : List RecommendationResult :=
  (allStandards.map (fun standard => analyzeStandardFit standard context)).filter
    (fun r => 30 ≤ r.confidence)

/-- Function `generateRecommendations(context)` of the hook (its artificial delay and
React state writes dropped): score the combined catalog, keep results with
confidence at least 30, and stable-sort by descending composite score
(JavaScript's `Array.prototype.sort` is stable; insertion sort with the
total preorder `hookLE` computes the same list). -/
def generateRecommendations (context : UserContext) : List RecommendationResult :=
  List.insertionSort hookLE (scoredAboveThreshold context)

/-- Function `getRecommendationReasoning(standardId)`: look up the current result
set by standard id; `recommendation?.reasons || []`. -/
def getRecommendationReasoning (recommendations : List RecommendationResult)
    (standardId : String) : List String :=
  match recommendations.find? (fun r => r.standard.id == standardId) with
  | some r => r.reasons
  | none => []

/-- Update `acc[category] = (acc[category] || 0) + 1` on a JavaScript object,
modelled as an association list in key-insertion order (the order
`Object.entries` later reports). -/
def bumpCategory (acc : List (String × Nat)) (category : String) : List (String × Nat) :=
  if acc.any (fun p => p.1 == category) then
    acc.map (fun p => if p.1 == category then (p.1, p.2 + 1) else p)
  else acc ++ [(category, 1)]

/-- The `categoryCount` accumulation of `generateAnalytics`, as the entry
list `Object.entries(categoryCount)` in insertion order. -/
def categoryEntries (recommendations : List RecommendationResult) : List (String × Nat) :=
  recommendations.foldl
    (fun acc r =>
      bumpCategory acc (if r.standard.region = Region.national then "Indian" else "International"))
    []

/-- Conditional chain `recommendations[0]?.implementationComplexity === 'low' ? '1-2 weeks' :
... === 'medium' ? '3-4 weeks' : '6-8 weeks'` (an empty list falls through
to the last branch). -/
def implementationTimeEstimateOf (recommendations : List RecommendationResult) : String :=
  match recommendations.head? with
  | some r =>
    match r.implementationComplexity with
    | .low => "1-2 weeks"
    | .medium => "3-4 weeks"
    | .high => "6-8 weeks"
  | none => "6-8 weeks"

/-- Function `generateAnalytics(recommendations)`.  On an empty input,
`Object.entries(categoryCount)` is empty and its `reduce` with no initial
value throws a `TypeError`, modelled as `Except.error` (the
`averageConfidence` division `sum / 0` would in that case be `NaN` as
well).  On non-empty input every field is computed as in the source;
`a[1] > b[1] ? a : b` keeps the earlier entry only on a strict win. -/
def generateAnalytics (recommendations : List RecommendationResult) :
    Except String RecommendationAnalytics :=
  match categoryEntries recommendations with
  | [] => .error "TypeError: Reduce of empty array with no initial value"
  | e :: es =>
    let averageConfidence : ℚ :=
      ((recommendations.map (fun r => (r.confidence : ℚ))).sum) / (recommendations.length : ℚ)
    .ok
      { totalRecommendations := recommendations.length
        averageConfidence := averageConfidence
        topCategory := (es.foldl (fun a b => if b.2 < a.2 then a else b) e).1
        userSatisfactionPrediction := min (averageConfidence + 10) 95
        implementationTimeEstimate := implementationTimeEstimateOf recommendations }

/-- Interface `RecommendationContext` of the `CurriculumSelector` component. -/
structure RecommendationContext where
  standard : CurriculumStandard
  confidence : Nat
  reasons : List String
  priority : Priority
deriving DecidableEq

namespace CurriculumSelector

/-- The body of the `allStandards.forEach` loop in the selector's
`generateRecommendations`: score one standard against the selector props. -/
def scoreStandard (userLocation : String) (schoolType : SchoolType)
    (language : LanguagePref) (gradeLevel : Option String)
    (standard : CurriculumStandard) : RecommendationContext :=
  let s0 : Nat × List String × Priority := (0, [], .alternative)
  let s1 :=
    if locationIndicatesIndia userLocation then
      if standard.region = Region.national then
        (s0.1 + 40, s0.2.1 ++ ["Designed specifically for Indian educational system"],
          Priority.primary)
      else
        (s0.1 + 10, s0.2.1 ++ ["International perspective valuable for global awareness"],
          Priority.secondary)
    else
      if standard.region = Region.international then
        (s0.1 + 35, s0.2.1 ++ ["International standard suitable for global schools"],
          Priority.primary)
      else s0
  let s2 :=
    if schoolType = SchoolType.government ∧ standard.id = "ncert" then
      (s1.1 + 30, s1.2.1 ++ ["NCERT is the foundation for government school curriculum"], s1.2.2)
    else if schoolType = SchoolType.private' ∧ standard.id = "cbse" then
      (s1.1 + 25, s1.2.1 ++ ["CBSE widely adopted by private schools in India"], s1.2.2)
    else if schoolType = SchoolType.international ∧
        (standard.id = "ib" ∨ standard.id = "cambridge") then
      (s1.1 + 30, s1.2.1 ++ ["Internationally recognized curriculum for global mobility"], s1.2.2)
    else s1
  let s3 :=
    if language = LanguagePref.hindi ∧ standard.region = Region.national then
      (s2.1 + 15, s2.2.1 ++ ["Strong Hindi language support and cultural integration"], s2.2.2)
    else if language = LanguagePref.english ∧ standard.region = Region.international then
      (s2.1 + 10, s2.2.1 ++ ["English-medium instruction with global perspective"], s2.2.2)
    else s2
  let s4 :=
    match gradeLevel with
    | none => s3
    | some g =>
      if g = "" then s3
      else
        match jsParseInt g with
        | none => s3
        | some gradeNum =>
          if gradeNum ≤ 5 ∧ standard.id = "ncert" then
            (s3.1 + 10, s3.2.1 ++ ["NCERT provides excellent foundation for primary grades"],
              s3.2.2)
          else if 9 ≤ gradeNum ∧ (standard.id = "cbse" ∨ standard.id = "icse") then
            (s3.1 + 15, s3.2.1 ++ ["Strong board exam preparation for secondary grades"],
              s3.2.2)
          else s3
  { standard := standard
    confidence := min s4.1 100
    reasons := s4.2.1
    priority := s4.2.2 }

/-- Table `priorityOrder` (primary 3, secondary 2, alternative 1) of the
selector's comparator. -/
def priorityOrder : Priority → Nat
  | .primary => 3
  | .secondary => 2
  | .alternative => 1

/-- The selector's comparator as the total preorder "`a` may come before
`b`": on different priorities, descending `priorityOrder`; on equal
priorities, descending confidence. -/
def selLE (a b : RecommendationContext) : Prop :=
  priorityOrder b.priority < priorityOrder a.priority ∨
    (priorityOrder a.priority = priorityOrder b.priority ∧ b.confidence ≤ a.confidence)

instance : DecidableRel selLE := fun _ _ => instDecidableOr

instance : IsTotal RecommendationContext selLE where
  total a b := by
    rcases Nat.lt_trichotomy (priorityOrder a.priority) (priorityOrder b.priority) with h | h | h
    · exact Or.inr (Or.inl h)
    · rcases Nat.le_total b.confidence a.confidence with hc | hc
      · exact Or.inl (Or.inr ⟨h, hc⟩)
      · exact Or.inr (Or.inr ⟨h.symm, hc⟩)
    · exact Or.inl (Or.inl h)

instance : IsTrans RecommendationContext selLE where
  trans a b c hab hbc := by
    rcases hab with hab | ⟨hab, hab'⟩
    · rcases hbc with hbc | ⟨hbc, _⟩
      · exact Or.inl (Nat.lt_trans hbc hab)
      · exact Or.inl (hbc ▸ hab)
    · rcases hbc with hbc | ⟨hbc, hbc'⟩
      · exact Or.inl (hab ▸ hbc)
      · exact Or.inr ⟨hab.trans hbc, Nat.le_trans hbc' hab'⟩

/-- The results pushed by the selector's scoring loop in catalog order:
each standard's score is kept when `confidence >= 20`. -/
def scoredAboveThreshold (userLocation : String) (schoolType : SchoolType)
    (language : LanguagePref) (gradeLevel : Option String) : List RecommendationContext :=
  (allStandards.map (scoreStandard userLocation schoolType language gradeLevel)).filter
    (fun r => 20 ≤ r.confidence)

/-- The selector's `generateRecommendations` (artificial delay and React
state writes dropped): score the catalog, keep results with confidence at
least 20, and stable-sort by priority tier first, then by descending
confidence within a tier. -/
def generateRecommendations (userLocation : String) (schoolType : SchoolType)
    (language : LanguagePref) (gradeLevel : Option String) : List RecommendationContext :=
  List.insertionSort selLE (scoredAboveThreshold userLocation schoolType language gradeLevel)

end CurriculumSelector

/-! ## Per-rule decompositions of `analyzeStandardFit` -/

/-- Confidence contributed by the geographic rule alone. -/
def geographicConfidence (standard : CurriculumStandard) (context : UserContext) : Nat :=
  (geographicRule standard context initFitState).confidence

/-- Reasons contributed by the geographic rule alone. -/
def geographicReasons (standard : CurriculumStandard) (context : UserContext) : List String :=
  (geographicRule standard context initFitState).reasons

/-- Confidence contributed by the school-type rule alone. -/
def schoolTypeConfidence (standard : CurriculumStandard) (context : UserContext) : Nat :=
  (schoolTypeRule standard context initFitState).confidence

/-- Reasons contributed by the school-type rule alone. -/
def schoolTypeReasons (standard : CurriculumStandard) (context : UserContext) : List String :=
  (schoolTypeRule standard context initFitState).reasons

/-- Confidence contributed by the language rule alone. -/
def languageConfidence (standard : CurriculumStandard) (context : UserContext) : Nat :=
  (languageRule standard context initFitState).confidence

/-- Reasons contributed by the language rule alone. -/
def languageReasons (standard : CurriculumStandard) (context : UserContext) : List String :=
  (languageRule standard context initFitState).reasons

/-- Confidence contributed by the grade-level rule alone. -/
def gradeConfidence (standard : CurriculumStandard) (context : UserContext) : Nat :=
  (gradeRule standard context initFitState).confidence

/-- Reasons contributed by the grade-level rule alone. -/
def gradeReasons (standard : CurriculumStandard) (context : UserContext) : List String :=
  (gradeRule standard context initFitState).reasons

/-- Confidence contributed by the teaching-experience rule alone. -/
def experienceConfidence (standard : CurriculumStandard) (context : UserContext) : Nat :=
  (experienceRule standard context initFitState).confidence

/-- Reasons contributed by the teaching-experience rule alone. -/
def experienceReasons (standard : CurriculumStandard) (context : UserContext) : List String :=
  (experienceRule standard context initFitState).reasons

/-- Confidence contributed by the resource-availability rule alone. -/
def resourceConfidence (standard : CurriculumStandard) (context : UserContext) : Nat :=
  (resourceRule standard context initFitState).confidence

/-- Reasons contributed by the resource-availability rule alone. -/
def resourceReasons (standard : CurriculumStandard) (context : UserContext) : List String :=
  (resourceRule standard context initFitState).reasons

lemma geographicRule_confidence (standard : CurriculumStandard) (context : UserContext)
    (s : FitState) :
    (geographicRule standard context s).confidence =
      s.confidence + geographicConfidence standard context := by
  unfold geographicConfidence geographicRule initFitState
  split_ifs <;> simp

lemma geographicRule_reasons (standard : CurriculumStandard) (context : UserContext)
    (s : FitState) :
    (geographicRule standard context s).reasons = s.reasons ++ geographicReasons standard context := by
  unfold geographicReasons geographicRule initFitState
  split_ifs <;> simp

lemma schoolTypeRule_confidence (standard : CurriculumStandard) (context : UserContext)
    (s : FitState) :
    (schoolTypeRule standard context s).confidence =
      s.confidence + schoolTypeConfidence standard context := by
  unfold schoolTypeConfidence schoolTypeRule initFitState
  split_ifs <;> simp

lemma schoolTypeRule_reasons (standard : CurriculumStandard) (context : UserContext)
    (s : FitState) :
    (schoolTypeRule standard context s).reasons = s.reasons ++ schoolTypeReasons standard context := by
  unfold schoolTypeReasons schoolTypeRule initFitState
  split_ifs <;> simp

lemma languageRule_confidence (standard : CurriculumStandard) (context : UserContext)
    (s : FitState) :
    (languageRule standard context s).confidence =
      s.confidence + languageConfidence standard context := by
  unfold languageConfidence languageRule initFitState
  split_ifs <;> simp

lemma languageRule_reasons (standard : CurriculumStandard) (context : UserContext)
    (s : FitState) :
    (languageRule standard context s).reasons = s.reasons ++ languageReasons standard context := by
  unfold languageReasons languageRule initFitState
  split_ifs <;> simp

lemma gradeRule_confidence (standard : CurriculumStandard) (context : UserContext)
    (s : FitState) :
    (gradeRule standard context s).confidence = s.confidence + gradeConfidence standard context := by
  unfold gradeConfidence gradeRule initFitState
  cases context.gradeLevel with
  | none => simp
  | some g =>
    simp only
    split_ifs with h
    · simp
    · cases jsParseInt g with
      | none => simp
      | some n =>
        dsimp only
        split_ifs <;> simp

lemma gradeRule_reasons (standard : CurriculumStandard) (context : UserContext)
    (s : FitState) :
    (gradeRule standard context s).reasons = s.reasons ++ gradeReasons standard context := by
  unfold gradeReasons gradeRule initFitState
  cases context.gradeLevel with
  | none => simp
  | some g =>
    simp only
    split_ifs with h
    · simp
    · cases jsParseInt g with
      | none => simp
      | some n =>
        dsimp only
        split_ifs <;> simp

lemma experienceRule_confidence (standard : CurriculumStandard) (context : UserContext)
    (s : FitState) :
    (experienceRule standard context s).confidence =
      s.confidence + experienceConfidence standard context := by
  unfold experienceConfidence experienceRule initFitState
  split_ifs <;> simp

lemma experienceRule_reasons (standard : CurriculumStandard) (context : UserContext)
    (s : FitState) :
    (experienceRule standard context s).reasons = s.reasons ++ experienceReasons standard context := by
  unfold experienceReasons experienceRule initFitState
  split_ifs <;> simp

lemma resourceRule_confidence (standard : CurriculumStandard) (context : UserContext)
    (s : FitState) :
    (resourceRule standard context s).confidence =
      s.confidence + resourceConfidence standard context := by
  unfold resourceConfidence resourceRule initFitState
  split_ifs <;> simp

lemma resourceRule_reasons (standard : CurriculumStandard) (context : UserContext)
    (s : FitState) :
    (resourceRule standard context s).reasons = s.reasons ++ resourceReasons standard context := by
  unfold resourceReasons resourceRule initFitState
  split_ifs <;> simp

/-- The reasons of a scored result are the per-rule reasons concatenated in
the order the six rules run. -/
lemma analyzeStandardFit_reasons (standard : CurriculumStandard) (context : UserContext) :
    (analyzeStandardFit standard context).reasons =
      geographicReasons standard context ++ schoolTypeReasons standard context ++
        languageReasons standard context ++ gradeReasons standard context ++
        experienceReasons standard context ++ resourceReasons standard context := by
  simp [analyzeStandardFit, resourceRule_reasons, experienceRule_reasons, gradeRule_reasons,
    languageRule_reasons, schoolTypeRule_reasons, geographicRule_reasons, initFitState]

/-- The confidence of a scored result is the clamped sum of the six
per-rule contributions. -/
lemma analyzeStandardFit_confidence (standard : CurriculumStandard) (context : UserContext) :
    (analyzeStandardFit standard context).confidence =
      min (geographicConfidence standard context + schoolTypeConfidence standard context +
        languageConfidence standard context + gradeConfidence standard context +
        experienceConfidence standard context + resourceConfidence standard context) 100 := by
  simp [analyzeStandardFit, resourceRule_confidence, experienceRule_confidence,
    gradeRule_confidence, languageRule_confidence, schoolTypeRule_confidence,
    geographicRule_confidence, initFitState]

lemma analyzeStandardFit_standard (standard : CurriculumStandard) (context : UserContext) :
    (analyzeStandardFit standard context).standard = standard := rfl

lemma geographicConfidence_eq_zero_iff (standard : CurriculumStandard) (context : UserContext) :
    geographicConfidence standard context = 0 ↔ geographicReasons standard context = [] := by
  unfold geographicConfidence geographicReasons geographicRule initFitState
  split_ifs <;> simp

lemma schoolTypeConfidence_eq_zero_iff (standard : CurriculumStandard) (context : UserContext) :
    schoolTypeConfidence standard context = 0 ↔ schoolTypeReasons standard context = [] := by
  unfold schoolTypeConfidence schoolTypeReasons schoolTypeRule initFitState
  split_ifs <;> simp

lemma languageConfidence_eq_zero_iff (standard : CurriculumStandard) (context : UserContext) :
    languageConfidence standard context = 0 ↔ languageReasons standard context = [] := by
  unfold languageConfidence languageReasons languageRule initFitState
  split_ifs <;> simp

lemma gradeConfidence_eq_zero_iff (standard : CurriculumStandard) (context : UserContext) :
    gradeConfidence standard context = 0 ↔ gradeReasons standard context = [] := by
  unfold gradeConfidence gradeReasons gradeRule initFitState
  cases context.gradeLevel with
  | none => simp
  | some g =>
    simp only
    split_ifs with h
    · simp
    · cases jsParseInt g with
      | none => simp
      | some n =>
        dsimp only
        split_ifs <;> simp

lemma experienceConfidence_eq_zero_iff (standard : CurriculumStandard) (context : UserContext) :
    experienceConfidence standard context = 0 ↔ experienceReasons standard context = [] := by
  unfold experienceConfidence experienceReasons experienceRule initFitState
  split_ifs <;> simp

lemma resourceConfidence_eq_zero_iff (standard : CurriculumStandard) (context : UserContext) :
    resourceConfidence standard context = 0 ↔ resourceReasons standard context = [] := by
  unfold resourceConfidence resourceReasons resourceRule initFitState
  split_ifs <;> simp

/-! ## Sorting and membership lemmas -/

/-- Stability of the hook's sort: restricting to any fixed composite score
leaves the pre-sort (catalog) order unchanged. -/
lemma insertionSort_hookLE_filter_eq (l : List RecommendationResult) (c : Nat) :
    (List.insertionSort hookLE l).filter (fun r => compositeScore r == c) =
      l.filter (fun r => compositeScore r == c) := by
  have hmem : ∀ x ∈ l.filter (fun r => compositeScore r == c), compositeScore x = c := by
    intro x hx
    simpa using List.of_mem_filter hx
  have hpw : (l.filter (fun r => compositeScore r == c)).Pairwise hookLE :=
    List.pairwise_of_forall_mem_list fun a ha b hb => by
      unfold hookLE
      rw [hmem a ha, hmem b hb]
  have hsort : (l.filter (fun r => compositeScore r == c)).Sublist
      (List.insertionSort hookLE l) :=
    List.sublist_insertionSort hpw (List.filter_sublist l)
  have hidem : (l.filter (fun r => compositeScore r == c)).filter
      (fun r => compositeScore r == c) = l.filter (fun r => compositeScore r == c) := by
    simp [List.filter_filter]
  have hsub2 : (l.filter (fun r => compositeScore r == c)).Sublist
      ((List.insertionSort hookLE l).filter (fun r => compositeScore r == c)) :=
    hidem ▸ hsort.filter (fun r => compositeScore r == c)
  have hperm : ((List.insertionSort hookLE l).filter (fun r => compositeScore r == c)).Perm
      (l.filter (fun r => compositeScore r == c)) :=
    (List.perm_insertionSort hookLE l).filter (fun r => compositeScore r == c)
  exact (hsub2.eq_of_length hperm.length_eq.symm).symm

/-- Membership in the hook's output: exactly the catalog entries whose
score reaches the inclusion threshold 30. -/
lemma mem_generateRecommendations {context : UserContext} {r : RecommendationResult} :
    r ∈ generateRecommendations context ↔
      (∃ standard ∈ allStandards, analyzeStandardFit standard context = r) ∧
        30 ≤ r.confidence := by
  simp [generateRecommendations, List.mem_insertionSort, scoredAboveThreshold,
    List.mem_filter, List.mem_map]

lemma allStandards_id_nodup : (allStandards.map (fun s => s.id)).Nodup := by decide

lemma eq_of_mem_allStandards_id_eq {s₁ s₂ : CurriculumStandard} (h₁ : s₁ ∈ allStandards)
    (h₂ : s₂ ∈ allStandards) (h : s₁.id = s₂.id) : s₁ = s₂ :=
  List.inj_on_of_nodup_map allStandards_id_nodup h₁ h₂ h

/-- The id lookup over the hook's output finds exactly the analysis of the
standard with that id, whenever that analysis made the cut. -/
lemma find?_generateRecommendations {context : UserContext} {standard : CurriculumStandard}
    (hstd : standard ∈ allStandards)
    (hc : 30 ≤ (analyzeStandardFit standard context).confidence) :
    (generateRecommendations context).find? (fun r => r.standard.id == standard.id) =
      some (analyzeStandardFit standard context) := by
  have hmem : analyzeStandardFit standard context ∈ generateRecommendations context :=
    mem_generateRecommendations.mpr ⟨⟨standard, hstd, rfl⟩, hc⟩
  have hsome : ((generateRecommendations context).find?
      (fun r => r.standard.id == standard.id)).isSome := by
    rw [List.find?_isSome]
    exact ⟨analyzeStandardFit standard context, hmem, by
      rw [analyzeStandardFit_standard]
      exact beq_self_eq_true _⟩
  obtain ⟨y, hy⟩ := Option.isSome_iff_exists.mp hsome
  have hpy : y.standard.id = standard.id := by
    have := List.find?_some hy
    simpa using this
  have hmy : y ∈ generateRecommendations context := List.mem_of_find?_eq_some hy
  obtain ⟨⟨standard', hstd', heq⟩, _⟩ := mem_generateRecommendations.mp hmy
  have hid : standard' = standard := by
    apply eq_of_mem_allStandards_id_eq hstd' hstd
    rw [← hpy, ← heq, analyzeStandardFit_standard]
  rw [hy, ← heq, hid]

/-! ## Concrete contexts from the specification examples -/

/-- Context `location:"india", schoolType:"government", language:"hindi", gradeLevel:"3"`. -/
def indiaGovernmentContext : UserContext :=
  { location := "india", schoolType := .government, language := .hindi, gradeLevel := some "3" }

/-- Context `location:"usa", schoolType:"international", language:"english"`. -/
def usaInternationalContext : UserContext :=
  { location := "usa", schoolType := .international, language := .english }

/-! ## Claims -/

/-- Claim C1: for every `UserContext`, `generateRecommendations` returns no
result with confidence below 30; the list is sorted descending by
`confidence + priorityWeight[priority]`; ties in that composite score stay
in catalog-iteration order (the order of `scoredAboveThreshold`, which
scores the catalog in order ncert, cbse, icse, ib, cambridge,
common-core). -/
theorem generateRecommendations_thresholded_sorted_stable (context : UserContext) :
    (∀ r ∈ generateRecommendations context, 30 ≤ r.confidence) ∧
      List.Sorted hookLE (generateRecommendations context) ∧
      (∀ c : Nat,
        (generateRecommendations context).filter (fun r => compositeScore r == c) =
          (scoredAboveThreshold context).filter (fun r => compositeScore r == c)) ∧
      allStandards.map (fun s => s.id) =
        ["ncert", "cbse", "icse", "ib", "cambridge", "common-core"] := by
  refine ⟨?_, List.sorted_insertionSort hookLE _, fun c => insertionSort_hookLE_filter_eq _ c, rfl⟩
  intro r hr
  exact (mem_generateRecommendations.mp hr).2

/-- Witness for C1 at the India/government example context and its top
result. -/
theorem generateRecommendations_thresholded_sorted_stable_witness :
    30 ≤ (analyzeStandardFit ncertStandard indiaGovernmentContext).confidence :=
  (generateRecommendations_thresholded_sorted_stable indiaGovernmentContext).1
    (analyzeStandardFit ncertStandard indiaGovernmentContext) (by decide)

/-- Claim C2: for every standard and context the confidence produced by
`analyzeStandardFit` is at most 100 (it is a `Nat`, hence an integer and
at least 0 by type). -/
theorem analyzeStandardFit_confidence_le_100 (standard : CurriculumStandard)
    (context : UserContext) : (analyzeStandardFit standard context).confidence ≤ 100 := by
  rw [analyzeStandardFit_confidence]
  exact min_le_right _ _

/-- Claim C4: the India/government/hindi/grade-3 context ranks `ncert`
first with priority `primary`. -/
theorem recommend_india_government_ncert_first :
    ((generateRecommendations indiaGovernmentContext).head?.map fun r => r.standard.id) =
        some "ncert" ∧
      ((generateRecommendations indiaGovernmentContext).head?.map fun r => r.priority) =
        some Priority.primary := by
  decide

/-- Claim C5: in the usa/international/english context, every `ib` or
`cambridge` result is ranked above every national-region result, and at
least one of `ib`, `cambridge` appears. -/
theorem recommend_usa_international_ib_cambridge_above_national :
    (∃ r ∈ generateRecommendations usaInternationalContext,
        r.standard.id = "ib" ∨ r.standard.id = "cambridge") ∧
      ∀ i j : Fin (generateRecommendations usaInternationalContext).length,
        ((generateRecommendations usaInternationalContext).get i).standard.id ∈
            (["ib", "cambridge"] : List String) →
        ((generateRecommendations usaInternationalContext).get j).standard.region =
            Region.national →
        i < j := by
  decide

lemma bumpCategory_ne_nil (acc : List (String × Nat)) (category : String) :
    bumpCategory acc category ≠ [] := by
  unfold bumpCategory
  split_ifs with h
  · intro hmap
    rw [List.map_eq_nil_iff] at hmap
    subst hmap
    simp at h
  · simp

lemma categoryEntries_ne_nil {recommendations : List RecommendationResult}
    (h : recommendations ≠ []) : categoryEntries recommendations ≠ [] := by
  unfold categoryEntries
  cases recommendations with
  | nil => exact absurd rfl h
  | cons r rs =>
    have key : ∀ (l : List RecommendationResult) (acc : List (String × Nat)), acc ≠ [] →
        l.foldl
          (fun acc r =>
            bumpCategory acc
              (if r.standard.region = Region.national then "Indian" else "International"))
          acc ≠ [] := by
      intro l
      induction l with
      | nil => intro acc hacc; simpa using hacc
      | cons x xs ih => intro acc _; exact ih _ (bumpCategory_ne_nil _ _)
    simpa using key rs _ (bumpCategory_ne_nil [] _)

/-- Claim C3 counterexample: on the empty result list `generateAnalytics`
does not return a zeroed analytics object — the `topCategory` reduce runs
over the empty `Object.entries` array with no initial value and throws a
`TypeError` (and `averageConfidence` would be the `NaN` of `0 / 0`). -/
theorem generateAnalytics_empty_throws :
    generateAnalytics [] =
      Except.error "TypeError: Reduce of empty array with no initial value" := rfl

/-- Claim C3 (amended): for every non-empty result list `generateAnalytics`
succeeds and its `averageConfidence` is the arithmetic mean of the members'
confidences; the empty list instead throws (see
`generateAnalytics_empty_throws`). -/
theorem generateAnalytics_averageConfidence_mean
    (recommendations : List RecommendationResult) (h : recommendations ≠ []) :
    ∃ a : RecommendationAnalytics,
      generateAnalytics recommendations = Except.ok a ∧
        a.averageConfidence =
          ((recommendations.map fun r => (r.confidence : ℚ)).sum) /
            (recommendations.length : ℚ) := by
  obtain ⟨e, es, hE⟩ := List.exists_cons_of_ne_nil (categoryEntries_ne_nil h)
  unfold generateAnalytics
  rw [hE]
  exact ⟨_, rfl, rfl⟩

/-- Witness for C3 (amended) on a one-element result list. -/
theorem generateAnalytics_averageConfidence_mean_witness :
    ∃ a : RecommendationAnalytics,
      generateAnalytics [analyzeStandardFit ncertStandard indiaGovernmentContext] =
          Except.ok a ∧
        a.averageConfidence =
          (([analyzeStandardFit ncertStandard indiaGovernmentContext].map
            fun r => (r.confidence : ℚ)).sum) /
            (([analyzeStandardFit ncertStandard indiaGovernmentContext] :
              List RecommendationResult).length : ℚ) :=
  generateAnalytics_averageConfidence_mean _ (by simp)

/-- Claim C6: for a standard id present in the result set,
`getRecommendationReasoning` returns exactly the reasons `analyzeStandardFit`
accumulated for that standard, in rule-firing order (geographic,
school-type, language, grade, experience, resource); for an id not present
it returns `[]` without signalling an error. -/
theorem getRecommendationReasoning_spec (context : UserContext) :
    (∀ standard ∈ allStandards, 30 ≤ (analyzeStandardFit standard context).confidence →
        getRecommendationReasoning (generateRecommendations context) standard.id =
          geographicReasons standard context ++ schoolTypeReasons standard context ++
            languageReasons standard context ++ gradeReasons standard context ++
            experienceReasons standard context ++ resourceReasons standard context) ∧
      ∀ standardId : String,
        (∀ r ∈ generateRecommendations context, r.standard.id ≠ standardId) →
        getRecommendationReasoning (generateRecommendations context) standardId = [] := by
  constructor
  · intro standard hstd hc
    unfold getRecommendationReasoning
    rw [find?_generateRecommendations hstd hc, ← analyzeStandardFit_reasons]
  · intro standardId hne
    unfold getRecommendationReasoning
    have hnone : (generateRecommendations context).find?
        (fun r => r.standard.id == standardId) = none := by
      rw [List.find?_eq_none]
      intro r hr
      simpa using hne r hr
    rw [hnone]

/-- Witness for C6 at the India/government example context and `ncert`. -/
theorem getRecommendationReasoning_spec_witness :
    getRecommendationReasoning (generateRecommendations indiaGovernmentContext)
        ncertStandard.id =
      geographicReasons ncertStandard indiaGovernmentContext ++
        schoolTypeReasons ncertStandard indiaGovernmentContext ++
        languageReasons ncertStandard indiaGovernmentContext ++
        gradeReasons ncertStandard indiaGovernmentContext ++
        experienceReasons ncertStandard indiaGovernmentContext ++
        resourceReasons ncertStandard indiaGovernmentContext :=
  (getRecommendationReasoning_spec indiaGovernmentContext).1 ncertStandard (by decide) (by decide)

lemma geographicRule_update_gradeLevel (standard : CurriculumStandard)
    (context : UserContext) (x y : Option String) (s : FitState) :
    geographicRule standard { context with gradeLevel := x } s =
      geographicRule standard { context with gradeLevel := y } s := rfl

lemma schoolTypeRule_update_gradeLevel (standard : CurriculumStandard)
    (context : UserContext) (x y : Option String) (s : FitState) :
    schoolTypeRule standard { context with gradeLevel := x } s =
      schoolTypeRule standard { context with gradeLevel := y } s := rfl

lemma languageRule_update_gradeLevel (standard : CurriculumStandard)
    (context : UserContext) (x y : Option String) (s : FitState) :
    languageRule standard { context with gradeLevel := x } s =
      languageRule standard { context with gradeLevel := y } s := rfl

lemma experienceRule_update_gradeLevel (standard : CurriculumStandard)
    (context : UserContext) (x y : Option String) (s : FitState) :
    experienceRule standard { context with gradeLevel := x } s =
      experienceRule standard { context with gradeLevel := y } s := rfl

lemma resourceRule_update_gradeLevel (standard : CurriculumStandard)
    (context : UserContext) (x y : Option String) (s : FitState) :
    resourceRule standard { context with gradeLevel := x } s =
      resourceRule standard { context with gradeLevel := y } s := rfl

lemma gradeRule_eq_id_of_parse_fail {g : String} (h : jsParseInt g = none)
    (standard : CurriculumStandard) (context : UserContext) (hg : context.gradeLevel = some g)
    (s : FitState) : gradeRule standard context s = s := by
  unfold gradeRule
  rw [hg]
  dsimp only
  split_ifs
  · rfl
  · rw [h]

lemma gradeRule_eq_id_of_none (standard : CurriculumStandard) (context : UserContext)
    (hg : context.gradeLevel = none) (s : FitState) : gradeRule standard context s = s := by
  unfold gradeRule
  rw [hg]

/-- Claim C7: a grade-level string that does not parse as an integer makes
`parseInt` return `NaN`, so the grade rule does not fire: the analysis and
the recommendation list equal the ones for the same context with no
grade-level bonus (no grade supplied), and nothing is thrown — the
functions are total. -/
theorem unparseable_grade_no_bonus (g : String) (h : jsParseInt g = none) :
    (∀ (standard : CurriculumStandard) (context : UserContext),
        analyzeStandardFit standard { context with gradeLevel := some g } =
          analyzeStandardFit standard { context with gradeLevel := none }) ∧
      ∀ context : UserContext,
        generateRecommendations { context with gradeLevel := some g } =
          generateRecommendations { context with gradeLevel := none } := by
  have hfit : ∀ (standard : CurriculumStandard) (context : UserContext),
      analyzeStandardFit standard { context with gradeLevel := some g } =
        analyzeStandardFit standard { context with gradeLevel := none } := by
    intro standard context
    unfold analyzeStandardFit
    rw [gradeRule_eq_id_of_parse_fail h standard _ rfl,
      gradeRule_eq_id_of_none standard _ rfl,
      geographicRule_update_gradeLevel standard context (some g) none,
      schoolTypeRule_update_gradeLevel standard context (some g) none,
      languageRule_update_gradeLevel standard context (some g) none,
      experienceRule_update_gradeLevel standard context (some g) none,
      resourceRule_update_gradeLevel standard context (some g) none]
  refine ⟨hfit, fun context => ?_⟩
  unfold generateRecommendations scoredAboveThreshold
  rw [funext fun standard => hfit standard context]

/-- Witness for C7 at the unparseable grade `"abc"`. -/
theorem unparseable_grade_no_bonus_witness :
    analyzeStandardFit ncertStandard { indiaGovernmentContext with gradeLevel := some "abc" } =
      analyzeStandardFit ncertStandard { indiaGovernmentContext with gradeLevel := none } :=
  (unparseable_grade_no_bonus "abc" (by decide)).1 ncertStandard indiaGovernmentContext

/-- Claim C9: a scored result has positive confidence exactly when its
reasons list is non-empty (every firing contribution adds confidence and
appends one reason), so every result in the hook's output (confidence at
least 30) carries at least one reason. -/
theorem confidence_pos_iff_reasons_nonempty :
    (∀ (standard : CurriculumStandard) (context : UserContext),
        0 < (analyzeStandardFit standard context).confidence ↔
          (analyzeStandardFit standard context).reasons ≠ []) ∧
      ∀ context : UserContext, ∀ r ∈ generateRecommendations context, r.reasons ≠ [] := by
  have main : ∀ (standard : CurriculumStandard) (context : UserContext),
      0 < (analyzeStandardFit standard context).confidence ↔
        (analyzeStandardFit standard context).reasons ≠ [] := by
    intro standard context
    rw [analyzeStandardFit_confidence, analyzeStandardFit_reasons]
    constructor
    · intro hpos hnil
      simp only [List.append_eq_nil] at hnil
      obtain ⟨⟨⟨⟨⟨hG, hS⟩, hL⟩, hGr⟩, hE⟩, hR⟩ := hnil
      have h1 := (geographicConfidence_eq_zero_iff standard context).mpr hG
      have h2 := (schoolTypeConfidence_eq_zero_iff standard context).mpr hS
      have h3 := (languageConfidence_eq_zero_iff standard context).mpr hL
      have h4 := (gradeConfidence_eq_zero_iff standard context).mpr hGr
      have h5 := (experienceConfidence_eq_zero_iff standard context).mpr hE
      have h6 := (resourceConfidence_eq_zero_iff standard context).mpr hR
      omega
    · intro hne
      by_contra hle
      have h1 : geographicConfidence standard context = 0 := by omega
      have h2 : schoolTypeConfidence standard context = 0 := by omega
      have h3 : languageConfidence standard context = 0 := by omega
      have h4 : gradeConfidence standard context = 0 := by omega
      have h5 : experienceConfidence standard context = 0 := by omega
      have h6 : resourceConfidence standard context = 0 := by omega
      apply hne
      rw [(geographicConfidence_eq_zero_iff standard context).mp h1,
        (schoolTypeConfidence_eq_zero_iff standard context).mp h2,
        (languageConfidence_eq_zero_iff standard context).mp h3,
        (gradeConfidence_eq_zero_iff standard context).mp h4,
        (experienceConfidence_eq_zero_iff standard context).mp h5,
        (resourceConfidence_eq_zero_iff standard context).mp h6]
      rfl
  refine ⟨main, ?_⟩
  intro context r hr
  obtain ⟨⟨standard, _, heq⟩, hc⟩ := mem_generateRecommendations.mp hr
  subst heq
  exact (main standard context).mp (by omega)

/-- Witness for C9: the top India/government result carries a reason. -/
theorem confidence_pos_iff_reasons_nonempty_witness :
    (analyzeStandardFit ncertStandard indiaGovernmentContext).reasons ≠ [] :=
  confidence_pos_iff_reasons_nonempty.2 indiaGovernmentContext
    (analyzeStandardFit ncertStandard indiaGovernmentContext) (by decide)

/-- Claim C8: the hook admits a scored result only at confidence 30 or
more, the selector variant only at confidence 20 or more, and the floors
genuinely differ: for usa/private/english the selector's output contains a
result (cbse, confidence 25) below the hook's floor of 30. -/
theorem inclusion_thresholds_differ :
    (∀ (context : UserContext) (r : RecommendationResult),
        r ∈ generateRecommendations context → 30 ≤ r.confidence) ∧
      (∀ (userLocation : String) (schoolType : SchoolType) (language : LanguagePref)
          (gradeLevel : Option String) (r : RecommendationContext),
        r ∈ CurriculumSelector.generateRecommendations userLocation schoolType language
            gradeLevel →
          20 ≤ r.confidence) ∧
      ∃ r ∈ CurriculumSelector.generateRecommendations "usa" SchoolType.private'
          LanguagePref.english none, r.standard.id = "cbse" ∧ r.confidence < 30 := by
  refine ⟨?_, ?_, by decide⟩
  · intro context r hr
    exact (mem_generateRecommendations.mp hr).2
  · intro userLocation schoolType language gradeLevel r hr
    simp only [CurriculumSelector.generateRecommendations, List.mem_insertionSort,
      CurriculumSelector.scoredAboveThreshold, List.mem_filter, decide_eq_true_eq] at hr
    exact hr.2

/-- Witness for C8 at the usa/international example context. -/
theorem inclusion_thresholds_differ_witness :
    30 ≤ (analyzeStandardFit ibStandard usaInternationalContext).confidence :=
  inclusion_thresholds_differ.1 usaInternationalContext
    (analyzeStandardFit ibStandard usaInternationalContext) (by decide)

/-- Claim C10: the selector orders its output by priority tier first
(`priorityOrder` descending: primary, secondary, alternative) and compares
confidence descending only inside a tier (`selLE`), not by the hook's
composite `confidence + priorityWeight` sum; concretely, for the
india/international/english props the primary result `ncert` (confidence
40) is ranked above the secondary result `ib` (confidence 50). -/
theorem selector_sorted_by_tier_then_confidence :
    (∀ (userLocation : String) (schoolType : SchoolType) (language : LanguagePref)
        (gradeLevel : Option String),
      List.Sorted CurriculumSelector.selLE
        (CurriculumSelector.generateRecommendations userLocation schoolType language
          gradeLevel)) ∧
      ∃ i j : Fin (CurriculumSelector.generateRecommendations "india"
          SchoolType.international LanguagePref.english none).length,
        i < j ∧
          ((CurriculumSelector.generateRecommendations "india" SchoolType.international
              LanguagePref.english none).get i).standard.id = "ncert" ∧
          ((CurriculumSelector.generateRecommendations "india" SchoolType.international
              LanguagePref.english none).get i).priority = Priority.primary ∧
          ((CurriculumSelector.generateRecommendations "india" SchoolType.international
              LanguagePref.english none).get j).standard.id = "ib" ∧
          ((CurriculumSelector.generateRecommendations "india" SchoolType.international
              LanguagePref.english none).get j).priority = Priority.secondary ∧
          ((CurriculumSelector.generateRecommendations "india" SchoolType.international
              LanguagePref.english none).get i).confidence <
            ((CurriculumSelector.generateRecommendations "india" SchoolType.international
              LanguagePref.english none).get j).confidence := by
  exact ⟨fun userLocation schoolType language gradeLevel =>
    List.sorted_insertionSort CurriculumSelector.selLE _, by decide⟩
